import Mathlib

/-!
Shallow embedding of the water-reminder scheduler from `src/app.ts` of the
water-app repository.

Times are epoch milliseconds, modelled as `Int`.  Each operation receives the
`Date.now()` samples it takes as explicit parameters, in call order.  The
observable effect of displaying a notification is modelled by returning the
list of notifications shown during the call, alongside the updated settings
record.
-/

/-- The persisted settings record (`interface Settings` in `app.ts`):
`intervalMinutes`, `lastSent` (epoch milliseconds, 0 = sentinel), and
`openAtLogin`. -/
structure Settings where
  intervalMinutes : Int
  lastSent : Int
  openAtLogin : Bool
deriving DecidableEq, Repr

/-- An update record as received by the `save-settings` IPC handler
(TypeScript `Partial<Settings>` restricted to the fields the handler reads):
an absent field is `none`. -/
structure SettingsUpdate where
  intervalMinutes : Option Int
  openAtLogin : Option Bool
deriving DecidableEq, Repr

/-- An observable notification shown to the user, identified by which
`new Notification` site in `app.ts` produced it. -/
inductive Notif
  | waterReminder
  | settingsSaved
deriving DecidableEq, Repr

/-- The function `showWaterNotification` of `app.ts`: shows the water-reminder
notification and then stamps `lastSent` with `Date.now()` (passed here as
`now`).  Returns the notifications shown and the updated record. -/
def showWaterNotification (now : Int) (s : Settings) : List Notif × Settings :=
  ([Notif.waterReminder], { s with lastSent := now })

/-- The function `checkAndNotify` of `app.ts`, run on every cron tick: reads
`lastSent` and `intervalMinutes` from the store, returns without action when
`lastSent === 0`, otherwise compares `now - lastSent` against
`intervalMinutes * 60 * 1000` and calls `showWaterNotification` when due.
`now` is the `Date.now()` sample taken for the elapsed-time check; `nowShow`
is the later `Date.now()` sample taken inside `showWaterNotification` when it
is reached. -/
def checkAndNotify (now nowShow : Int) (s : Settings) : List Notif × Settings :=
  if s.lastSent = 0 then ([], s)
  else
    let timeSinceLastSent := now - s.lastSent
    let intervalMs := s.intervalMinutes * 60 * 1000
    if intervalMs ≤ timeSinceLastSent then showWaterNotification nowShow s
    else ([], s)

/-- The `save-settings` IPC handler of `app.ts`: writes `intervalMinutes` when
present in the request, writes `openAtLogin` when present, then
unconditionally sets `lastSent = Date.now()` (passed as `now`), shows the
"Settings Saved" notification, and returns success. -/
def saveSettings (newSettings : SettingsUpdate) (now : Int) (s : Settings) :
    List Notif × Settings × Bool :=
  let s1 := match newSettings.intervalMinutes with
    | some m => { s with intervalMinutes := m }
    | none => s
  let s2 := match newSettings.openAtLogin with
    | some b => { s1 with openAtLogin := b }
    | none => s1
  let s3 := { s2 with lastSent := now }
  ([Notif.settingsSaved], s3, true)

/-- The `test-notification` IPC handler of `app.ts`: calls
`showWaterNotification` directly (no due-check) and returns success. -/
def testNotification (now : Int) (s : Settings) : List Notif × Settings × Bool :=
  let r := showWaterNotification now s
  (r.1, r.2, true)

/-- The settings effect of `initScheduler` of `app.ts`: after starting the
once-a-minute cron, it stamps `lastSent = Date.now()` (passed as `now`). -/
def initScheduler (now : Int) (s : Settings) : Settings :=
  { s with lastSent := now }

/-- One settings-touching operation of the app, carrying the `Date.now()`
samples it takes, in call order. -/
inductive Op
  | tick (now nowShow : Int)
  | fire (now : Int)
  | save (u : SettingsUpdate) (now : Int)
  | init (now : Int)
  | test (now : Int)
deriving DecidableEq, Repr

/-- The effect of one operation on the settings record. -/
def stepOp (op : Op) (s : Settings) : Settings :=
  match op with
  | Op.tick now nowShow => (checkAndNotify now nowShow s).2
  | Op.fire now => (showWaterNotification now s).2
  | Op.save u now => (saveSettings u now s).2.1
  | Op.init now => initScheduler now s
  | Op.test now => (testNotification now s).2.1

/-- The `Date.now()` samples an operation takes, in call order. -/
def opTimes : Op → List Int
  | Op.tick now nowShow => [now, nowShow]
  | Op.fire now => [now]
  | Op.save _ now => [now]
  | Op.init now => [now]
  | Op.test now => [now]

/-- All clock samples taken along a sequence of operations, in order. -/
def traceTimes : List Op → List Int
  | [] => []
  | op :: ops => opTimes op ++ traceTimes ops

/-- Runs a sequence of operations over the settings record. -/
def run (s : Settings) : List Op → Settings
  | [] => s
  | op :: ops => run (stepOp op s) ops

/-- Helper: the settings record produced by the `save-settings` handler always
has `lastSent = now`. -/
theorem saveSettings_lastSent (u : SettingsUpdate) (now : Int) (s : Settings) :
    (saveSettings u now s).2.1.lastSent = now := rfl

/-- C1: with `lastSent = T > 0` and `intervalMinutes = M > 0`, a tick at
`now = T + M*60000 - 1` fires no notification, and a tick at
`now = T + M*60000` fires one: the due-check `elapsed >= intervalMs` is
inclusive at the boundary. -/
theorem tick_threshold (s : Settings) (nowShow : Int)
    (hT : 0 < s.lastSent) (hM : 0 < s.intervalMinutes) :
    (checkAndNotify (s.lastSent + s.intervalMinutes * 60000 - 1) nowShow s).1 = [] ∧
    (checkAndNotify (s.lastSent + s.intervalMinutes * 60000) nowShow s).1 =
      [Notif.waterReminder] := by
  constructor
  · simp only [checkAndNotify, showWaterNotification]
    split_ifs with h1 h2
    · rfl
    · exfalso; omega
    · rfl
  · simp only [checkAndNotify, showWaterNotification]
    split_ifs with h1 h2
    · exfalso; omega
    · rfl
    · exfalso; omega

/-- Witness for `tick_threshold` at `T = 1000`, `M = 15`. -/
theorem tick_threshold_witness :
    (checkAndNotify (1000 + 15 * 60000 - 1) 0 ⟨15, 1000, false⟩).1 = [] ∧
    (checkAndNotify (1000 + 15 * 60000) 0 ⟨15, 1000, false⟩).1 =
      [Notif.waterReminder] :=
  tick_threshold ⟨15, 1000, false⟩ 0 (by decide) (by decide)

/-- C2: when `lastSent = 0`, a tick fires no notification and leaves the
settings record unchanged, for every interval and every tick time. -/
theorem tick_suppressed (s : Settings) (now nowShow : Int)
    (h0 : s.lastSent = 0) :
    checkAndNotify now nowShow s = ([], s) := by
  simp [checkAndNotify, h0]

/-- Witness for `tick_suppressed` at `lastSent = 0`. -/
theorem tick_suppressed_witness :
    checkAndNotify 123456 123457 ⟨15, 0, false⟩ = ([], ⟨15, 0, false⟩) :=
  tick_suppressed ⟨15, 0, false⟩ 123456 123457 rfl

/-- C3 counterexample: the `test-notification` handler does NOT leave
`lastSent` unchanged — on the record `⟨15, 5, false⟩` at time 100 it rewrites
`lastSent` from 5 to 100. -/
theorem test_keeps_lastSent_cex :
    ¬ (testNotification 100 ⟨15, 5, false⟩).2.1.lastSent = 5 := by
  decide

/-- C3 amended: the `test-notification` handler shows the water notification
unconditionally (no due-check consulted: this holds for every record and
time), returns success, and sets `lastSent` to the display time `now`. -/
theorem test_bypasses_check_and_stamps (now : Int) (s : Settings) :
    testNotification now s =
      ([Notif.waterReminder], { s with lastSent := now }, true) := rfl

/-- C4: every notification display that goes through the shared
`showWaterNotification` primitive stamps `lastSent` with the display time —
unconditionally for the primitive itself and for the manual
test-notification path (any prior state, the `lastSent = 0` sentinel
included), and on the scheduled tick path whenever the tick displays at
all. -/
theorem show_and_stamp (s : Settings) (now nowShow : Int) :
    (showWaterNotification nowShow s).2.lastSent = nowShow ∧
    ((checkAndNotify now nowShow s).1 ≠ [] →
      (checkAndNotify now nowShow s).2.lastSent = nowShow) ∧
    (testNotification nowShow s).2.1.lastSent = nowShow := by
  refine ⟨rfl, fun hfire => ?_, rfl⟩
  simp only [checkAndNotify, showWaterNotification] at hfire ⊢
  split_ifs at hfire ⊢ with h1 h2
  · exact absurd rfl hfire
  · rfl
  · exact absurd rfl hfire

/-- Witness for `show_and_stamp`: with lastSent 10, interval 1 minute and a
tick at 10 + 60000, both the fired tick and the test path stamp `lastSent`
with the display-time sample. -/
theorem show_and_stamp_witness :
    (showWaterNotification 99 ⟨1, 10, false⟩).2.lastSent = 99 ∧
    ((checkAndNotify (10 + 60000) 99 ⟨1, 10, false⟩).1 ≠ [] →
      (checkAndNotify (10 + 60000) 99 ⟨1, 10, false⟩).2.lastSent = 99) ∧
    (testNotification 99 ⟨1, 10, false⟩).2.1.lastSent = 99 :=
  show_and_stamp ⟨1, 10, false⟩ (10 + 60000) 99

/-- C5: the `save-settings` handler sets `lastSent = now` unconditionally —
for every update record, including an empty one, and every prior state — and
consequently a later tick strictly before `now + intervalMinutes*60000`
(interval as saved) fires no notification. -/
theorem save_resets_window (u : SettingsUpdate) (s : Settings)
    (now now2 nowShow : Int)
    (hlt : now2 - now < (saveSettings u now s).2.1.intervalMinutes * 60000) :
    (saveSettings u now s).2.1.lastSent = now ∧
    (checkAndNotify now2 nowShow (saveSettings u now s).2.1).1 = [] := by
  refine ⟨rfl, ?_⟩
  have hl : (saveSettings u now s).2.1.lastSent = now := rfl
  simp only [checkAndNotify, showWaterNotification]
  split_ifs with h1 h2
  · rfl
  · exfalso; rw [hl] at h2; omega
  · rfl

/-- Witness for `save_resets_window`: empty update, prior state about to
fire, tick right after the save. -/
theorem save_resets_window_witness :
    (saveSettings ⟨none, none⟩ 1000000 ⟨15, 42, false⟩).2.1.lastSent = 1000000 ∧
    (checkAndNotify 1000001 0 (saveSettings ⟨none, none⟩ 1000000
      ⟨15, 42, false⟩).2.1).1 = [] :=
  save_resets_window ⟨none, none⟩ ⟨15, 42, false⟩ 1000000 1000001 0 (by decide)

/-- C6: `initScheduler` sets `lastSent = now` unconditionally, whatever the
persisted prior state (even an already-overdue one), and consequently a later
tick strictly before `now + intervalMinutes*60000` fires no notification. -/
theorem init_resets_window (s : Settings) (now now2 nowShow : Int)
    (hlt : now2 - now < s.intervalMinutes * 60000) :
    (initScheduler now s).lastSent = now ∧
    (checkAndNotify now2 nowShow (initScheduler now s)).1 = [] := by
  refine ⟨rfl, ?_⟩
  simp only [checkAndNotify, showWaterNotification, initScheduler]
  split_ifs with h1 h2
  · rfl
  · exfalso; omega
  · rfl

/-- Witness for `init_resets_window`: prior session left `lastSent` overdue
by far (interval 15 min, lastSent 1), scheduler starts at 10_000_000, tick one
millisecond later fires nothing. -/
theorem init_resets_window_witness :
    (initScheduler 10000000 ⟨15, 1, false⟩).lastSent = 10000000 ∧
    (checkAndNotify 10000001 0 (initScheduler 10000000 ⟨15, 1, false⟩)).1 = [] :=
  init_resets_window ⟨15, 1, false⟩ 10000000 10000001 0 (by decide)

/-- C7 counterexample: a save request carrying `intervalMinutes = -1` is NOT
rejected — the handler writes -1 into the settings record and reports
success. -/
theorem save_rejects_nonpositive_cex :
    (saveSettings ⟨some (-1), none⟩ 1000 ⟨15, 50, false⟩).2.1.intervalMinutes
        = -1 ∧
    (saveSettings ⟨some (-1), none⟩ 1000 ⟨15, 50, false⟩).2.2 = true := by
  decide

/-- C7 amended: the `save-settings` handler performs no validation of
`intervalMinutes`: any requested value, non-positive included, is written
verbatim into the settings record seen by the scheduler, and the handler
reports success. -/
theorem save_writes_any_interval (m : Int) (b : Option Bool) (s : Settings)
    (now : Int) (hm : m ≤ 0) :
    (saveSettings ⟨some m, b⟩ now s).2.1.intervalMinutes = m ∧
    (saveSettings ⟨some m, b⟩ now s).2.2 = true := by
  cases b <;> exact ⟨rfl, rfl⟩

/-- Witness for `save_writes_any_interval` at `m = 0`. -/
theorem save_writes_any_interval_witness :
    (saveSettings ⟨some 0, some true⟩ 7 ⟨15, 50, false⟩).2.1.intervalMinutes
        = 0 ∧
    (saveSettings ⟨some 0, some true⟩ 7 ⟨15, 50, false⟩).2.2 = true :=
  save_writes_any_interval 0 (some true) ⟨15, 50, false⟩ 7 (by decide)

/-- C8: with `lastSent = T > 0` and `now - T < intervalMinutes*60000`, a tick
fires nothing and returns the settings record with every field unchanged. -/
theorem tick_not_due_frame (s : Settings) (now nowShow : Int)
    (hT : 0 < s.lastSent)
    (hlt : now - s.lastSent < s.intervalMinutes * 60000) :
    checkAndNotify now nowShow s = ([], s) := by
  simp only [checkAndNotify, showWaterNotification]
  split_ifs with h1 h2
  · rfl
  · exfalso; omega
  · rfl

/-- Witness for `tick_not_due_frame`: the spec's scenario, interval 15 min,
lastSent 10 minutes ago. -/
theorem tick_not_due_frame_witness :
    checkAndNotify 1000000 1000001 ⟨15, 1000000 - 10 * 60000, false⟩ =
      ([], ⟨15, 1000000 - 10 * 60000, false⟩) :=
  tick_not_due_frame ⟨15, 1000000 - 10 * 60000, false⟩ 1000000 1000001
    (by decide) (by decide)

/-- C10: in the `save-settings` handler, a field absent from the update is
kept at its prior value — absent `intervalMinutes` keeps the stored interval,
absent `openAtLogin` keeps the stored flag — while `lastSent` is written
unconditionally. -/
theorem save_absent_fields_frame (u : SettingsUpdate) (s : Settings)
    (now : Int) :
    (u.intervalMinutes = none →
      (saveSettings u now s).2.1.intervalMinutes = s.intervalMinutes) ∧
    (u.openAtLogin = none →
      (saveSettings u now s).2.1.openAtLogin = s.openAtLogin) ∧
    (saveSettings u now s).2.1.lastSent = now := by
  obtain ⟨i, o⟩ := u
  cases i <;> cases o <;> simp [saveSettings]

/-- Witness for `save_absent_fields_frame` at the empty update. -/
theorem save_absent_fields_frame_witness :
    ((⟨none, none⟩ : SettingsUpdate).intervalMinutes = none →
      (saveSettings ⟨none, none⟩ 777 ⟨15, 50, true⟩).2.1.intervalMinutes = 15) ∧
    ((⟨none, none⟩ : SettingsUpdate).openAtLogin = none →
      (saveSettings ⟨none, none⟩ 777 ⟨15, 50, true⟩).2.1.openAtLogin = true) ∧
    (saveSettings ⟨none, none⟩ 777 ⟨15, 50, true⟩).2.1.lastSent = 777 :=
  save_absent_fields_frame ⟨none, none⟩ ⟨15, 50, true⟩ 777

/-- Helper: one operation either leaves `lastSent` unchanged or overwrites it
with one of the `Date.now()` samples the operation took. -/
theorem stepOp_lastSent_mem (op : Op) (s : Settings) :
    (stepOp op s).lastSent = s.lastSent ∨ (stepOp op s).lastSent ∈ opTimes op := by
  cases op with
  | tick now nowShow =>
      simp only [stepOp, checkAndNotify, showWaterNotification, opTimes]
      split_ifs with h1 h2
      · exact Or.inl rfl
      · exact Or.inr (by simp)
      · exact Or.inl rfl
  | fire now => exact Or.inr (by simp [stepOp, showWaterNotification, opTimes])
  | save u now => exact Or.inr (by simp [stepOp, saveSettings, opTimes])
  | init now => exact Or.inr (by simp [stepOp, initScheduler, opTimes])
  | test now =>
      exact Or.inr (by simp [stepOp, testNotification, showWaterNotification, opTimes])

/-- C9: assuming the wall clock is non-decreasing — the stored `lastSent`
precedes every clock sample of the trace, and the samples are taken in
non-decreasing order — `lastSent` never decreases across any sequence of
operations (ticks, direct fires, saves, scheduler inits, test
notifications). -/
theorem lastSent_monotone (s : Settings) (ops : List Op)
    (h : (s.lastSent :: traceTimes ops).Pairwise (· ≤ ·)) :
    s.lastSent ≤ (run s ops).lastSent := by
  induction ops generalizing s with
  | nil => exact le_refl _
  | cons op rest ih =>
      rw [traceTimes, List.pairwise_cons] at h
      obtain ⟨hhead, htail⟩ := h
      rw [List.pairwise_append] at htail
      obtain ⟨hop, hrest, hcross⟩ := htail
      have hstep := stepOp_lastSent_mem op s
      have hle : s.lastSent ≤ (stepOp op s).lastSent := by
        rcases hstep with h | h
        · exact h.ge
        · exact hhead _ (List.mem_append.mpr (Or.inl h))
      have hpair : ((stepOp op s).lastSent :: traceTimes rest).Pairwise (· ≤ ·) := by
        rw [List.pairwise_cons]
        refine ⟨fun b hb => ?_, hrest⟩
        rcases hstep with h | h
        · exact h ▸ hhead _ (List.mem_append.mpr (Or.inr hb))
        · exact hcross _ h _ hb
      exact le_trans hle (ih (stepOp op s) hpair)

/-- Witness for `lastSent_monotone`: a five-operation trace with a
non-decreasing clock, starting from `lastSent = 5`. -/
theorem lastSent_monotone_witness :
    ((⟨15, 5, false⟩ : Settings).lastSent ::
        traceTimes [Op.init 10, Op.tick 20 21, Op.save ⟨some 1, none⟩ 40,
          Op.test 50, Op.fire 60]).Pairwise (· ≤ ·) ∧
    (⟨15, 5, false⟩ : Settings).lastSent ≤
      (run ⟨15, 5, false⟩ [Op.init 10, Op.tick 20 21,
        Op.save ⟨some 1, none⟩ 40, Op.test 50, Op.fire 60]).lastSent :=
  ⟨by decide, lastSent_monotone ⟨15, 5, false⟩ _ (by decide)⟩
